import Mathlib

/-!
Verification development for the TT (Task & Workflow) core of the
house_victoria_mcp repository: Task Manager (`tt/task_manager.py`),
Workflow Engine (`tt/workflow_engine.py`) and Progress Tracker
(`tt/progress_tracker.py`), shallowly embedded as pure Lean functions.

Modelling conventions:
* Python `datetime.now()` / `loop.time()` values are supplied as explicit
  `Nat` timestamps.
* Entity ids are generated in the source by sha256 hashes of name+timestamp;
  the hash itself is opaque, so freshly generated ids are supplied as explicit
  arguments (or drawn from a counter in the workflow engine).
* Python floats are modelled as rationals (`ℚ`).
* Python dicts are association lists preserving insertion order, matching
  CPython dict semantics (update keeps position, new keys append).
* `async` functions are modelled as pure state transformers; a caller-supplied
  coroutine is represented by its outcome (return value / cancellation /
  raised message).
-/

namespace LLMOD

/-- Model of a Python value, as far as the TT core inspects values
(truthiness tests and dict wrapping). -/
inductive PyVal where
  | none
  | bool (b : Bool)
  | int (n : Int)
  | float (q : ℚ)
  | str (s : String)
  | list (xs : List PyVal)
  | dict (kvs : List (String × PyVal))
deriving Repr

/-- Python truthiness for the modelled values. -/
def PyVal.truthy : PyVal → Bool
  | .none => false
  | .bool b => b
  | .int n => n ≠ 0
  | .float q => q ≠ 0
  | .str s => s ≠ ""
  | .list xs => !xs.isEmpty
  | .dict kvs => !kvs.isEmpty

/-- `TaskStatus` enum of `task_manager.py`. -/
inductive TaskStatus where
  | pending
  | in_progress
  | completed
  | failed
  | cancelled
deriving Repr, DecidableEq

/-- `TaskPriority` enum of `task_manager.py`. -/
inductive TaskPriority where
  | low
  | medium
  | high
  | urgent
deriving Repr, DecidableEq

/-- `WorkflowStatus` enum of `workflow_engine.py`. -/
inductive WorkflowStatus where
  | pending
  | running
  | paused
  | completed
  | failed
  | cancelled
deriving Repr, DecidableEq

/-- `ProgressState` enum of `progress_tracker.py`. -/
inductive ProgressState where
  | not_started
  | in_progress
  | completed
  | failed
  | paused
deriving Repr, DecidableEq

/-- Python exceptions that the embedded code can raise. -/
inductive PyExc where
  | valueError (msg : String)
  | attributeError (msg : String)
  | zeroDivisionError
  | cancelledError
  | other (msg : String)
deriving Repr, DecidableEq

/-- Lookup in an insertion-ordered Python dict (`d.get(k)` / `d[k]`). -/
def dictGet {α : Type} (d : List (String × α)) (k : String) : Option α :=
  match d with
  | [] => none
  | (k', v) :: rest => if k' = k then some v else dictGet rest k

/-- Assignment `d[k] = v` on an insertion-ordered Python dict: an existing
key keeps its position, a new key is appended at the end. -/
def dictSet {α : Type} (d : List (String × α)) (k : String) (v : α) :
    List (String × α) :=
  match d with
  | [] => [(k, v)]
  | (k', v') :: rest =>
      if k' = k then (k, v) :: rest else (k', v') :: dictSet rest k v

/-- Deletion `del d[k]` on an insertion-ordered Python dict. -/
def dictDel {α : Type} (d : List (String × α)) (k : String) :
    List (String × α) :=
  match d with
  | [] => []
  | (k', v') :: rest =>
      if k' = k then rest else (k', v') :: dictDel rest k

/-- `list(d.values())` of an insertion-ordered Python dict. -/
def dictValues {α : Type} (d : List (String × α)) : List α :=
  d.map Prod.snd

/-- Embedding of the `Task` dataclass of `task_manager.py`. -/
structure Task where
  id : String
  name : String
  description : String
  status : TaskStatus
  priority : TaskPriority
  created_at : Nat
  updated_at : Nat
  completed_at : Option Nat
  assigned_to : Option String
  tags : List String
  progress : ℚ
  result : Option PyVal
  error : Option String
  metadata : List (String × PyVal)
  dependencies : List String
  workflow_id : Option String
deriving Repr

/-- State of a `TaskManager` instance: the `tasks` dict and the key set of
`_running_tasks` (the asyncio handles themselves are opaque; what the code
observes is key membership, cancellation and deletion). -/
structure TaskManager where
  tasks : List (String × Task)
  running : List String
deriving Repr

/-- The empty (freshly constructed) task manager. -/
def tmEmpty : TaskManager := { tasks := [], running := [] }

/-- `TaskManager.create_task`.  The fresh id comes from
`_generate_task_id` (sha256 of name+timestamp, opaque), so it is passed as
the explicit argument `task_id`; `now` stands for `datetime.now()`. -/
def TaskManager.create_task (st : TaskManager) (task_id : String) (now : Nat)
    (name description : String) (priority : TaskPriority)
    (assigned_to : Option String) (tags : Option (List String))
    (metadata : Option (List (String × PyVal)))
    (dependencies : Option (List String)) (workflow_id : Option String) :
    TaskManager × Task :=
  let task : Task :=
    { id := task_id, name := name, description := description,
      status := .pending, priority := priority,
      created_at := now, updated_at := now, completed_at := none,
      assigned_to := assigned_to, tags := tags.getD [],
      progress := 0, result := none, error := none,
      metadata := metadata.getD [], dependencies := dependencies.getD [],
      workflow_id := workflow_id }
  ({ st with tasks := dictSet st.tasks task_id task }, task)

/-- `TaskManager.get_task`. -/
def TaskManager.get_task (st : TaskManager) (task_id : String) : Option Task :=
  dictGet st.tasks task_id

/-- `TaskManager.update_task_status`.  Returns the new manager state, the
updated task (`none` when the id is unknown), and the list of running
handles on which `.cancel()` was called. -/
def TaskManager.update_task_status (st : TaskManager) (now : Nat)
    (task_id : String) (status : TaskStatus) (progress : Option ℚ)
    (result : Option PyVal) (error : Option String) :
    TaskManager × Option Task × List String :=
  match dictGet st.tasks task_id with
  | none => (st, none, [])
  | some task =>
    let task := { task with status := status, updated_at := now }
    let task :=
      match progress with
      | some p => { task with progress := max 0 (min 100 p) }
      | none => task
    let task :=
      match result with
      | some r => { task with result := some r }
      | none => task
    let task :=
      match error with
      | some e => { task with error := some e }
      | none => task
    if status = .completed then
      let task := { task with completed_at := some now, progress := 100 }
      ({ tasks := dictSet st.tasks task_id task,
         running := st.running.filter (fun r => r ≠ task_id) },
       some task,
       if task_id ∈ st.running then [task_id] else [])
    else
      ({ st with tasks := dictSet st.tasks task_id task }, some task, [])

/-- Python's sort key `(priority_order.get(t.priority, 4), t.created_at)`:
the rank of `TaskPriority` in `list_tasks` (all four priorities are in the
`priority_order` dict, so the default 4 is unreachable). -/
def priorityOrder : TaskPriority → Nat
  | .urgent => 0
  | .high => 1
  | .medium => 2
  | .low => 3

/-- The `≤` relation induced by the Python sort key of `list_tasks`
(lexicographic on priority rank, then `created_at`). -/
def taskSortLE (a b : Task) : Bool :=
  priorityOrder a.priority < priorityOrder b.priority ||
    (priorityOrder a.priority = priorityOrder b.priority &&
      a.created_at ≤ b.created_at)

/-- `TaskManager.list_tasks`.  Each filter is applied under Python
truthiness: `None` is skipped, and so are an empty string
(`assigned_to`/`workflow_id`) and an empty `tags` list; `TaskStatus` and
`TaskPriority` members are always truthy.  `list.sort` is stable
(Timsort), modelled by `List.mergeSort`, which is stable as well. -/
def TaskManager.list_tasks (st : TaskManager) (status : Option TaskStatus)
    (priority : Option TaskPriority) (assigned_to : Option String)
    (workflow_id : Option String) (tags : Option (List String)) : List Task :=
  let tasks := dictValues st.tasks
  let tasks :=
    match status with
    | some s => tasks.filter (fun (t : Task) => t.status = s)
    | none => tasks
  let tasks :=
    match priority with
    | some p => tasks.filter (fun (t : Task) => t.priority = p)
    | none => tasks
  let tasks :=
    match assigned_to with
    | some a =>
        if a = "" then tasks else tasks.filter (fun (t : Task) => t.assigned_to = some a)
    | none => tasks
  let tasks :=
    match workflow_id with
    | some w =>
        if w = "" then tasks else tasks.filter (fun (t : Task) => t.workflow_id = some w)
    | none => tasks
  let tasks :=
    match tags with
    | some tg =>
        if tg.isEmpty then tasks
        else tasks.filter (fun (t : Task) => tg.any (fun x => t.tags.contains x))
    | none => tasks
  tasks.mergeSort taskSortLE

/-- `TaskManager.delete_task`.  Returns the new state, the boolean result,
and the running handles on which `.cancel()` was called. -/
def TaskManager.delete_task (st : TaskManager) (task_id : String) :
    TaskManager × Bool × List String :=
  if (dictGet st.tasks task_id).isSome then
    ({ tasks := dictDel st.tasks task_id,
       running := st.running.filter (fun r => r ≠ task_id) },
     true,
     if task_id ∈ st.running then [task_id] else [])
  else
    (st, false, [])

/-- Is dependency `dep_id` unmet in state `st`?  Mirrors the loop body of
`execute_task`: unmet when the id is unknown or the task is not Completed. -/
def depUnmet (st : TaskManager) (dep_id : String) : Bool :=
  match dictGet st.tasks dep_id with
  | none => true
  | some dt => dt.status ≠ TaskStatus.completed

/-- `pending_deps` as computed by `execute_task`: the dependencies of
`task` that are unmet in `st`, in declaration order. -/
def unmetDeps (st : TaskManager) (task : Task) : List String :=
  task.dependencies.filter (depUnmet st)

/-- `", ".join(pending_deps)`. -/
def joinComma (xs : List String) : String :=
  String.intercalate ", " xs

/-- The outcome of a caller-supplied async execution function, as observed
by `_execute_wrapper`: a returned value, an `asyncio.CancelledError`, or
any other raised exception (captured by its message). -/
inductive ExecOutcome where
  | ret (v : PyVal)
  | cancelled
  | raised (msg : String)
deriving Repr

/-- `TaskManager.execute_task` up to (and including) launching the wrapper
coroutine: the dependency check, the Pending/InProgress transition, and
registration of the running handle.  Returns the new state, the returned
task (the source returns the task object, which the status updates mutate
in place, so the post-update record is returned) and whether the wrapper
was launched. -/
def TaskManager.execute_task (st : TaskManager) (now : Nat)
    (task_id : String) : TaskManager × Option Task × Bool :=
  match dictGet st.tasks task_id with
  | none => (st, none, false)
  | some task =>
    let pending_deps := unmetDeps st task
    if pending_deps ≠ [] then
      let error_msg := "Dependencies not completed: " ++ joinComma pending_deps
      let r := st.update_task_status now task_id .pending none none (some error_msg)
      (r.1, dictGet r.1.tasks task_id, false)
    else
      let r := st.update_task_status now task_id .in_progress (some 0) none none
      ({ r.1 with
          running := task_id :: r.1.running.filter (fun x => x ≠ task_id) },
       dictGet r.1.tasks task_id, true)

/-- The `_execute_wrapper` coroutine of `execute_task`, applied when the
execution function's outcome is known.  Note `{"data": result} if result
else {}`: a falsy return value is recorded as the empty dict. -/
def TaskManager.execute_wrapper (st : TaskManager) (now : Nat)
    (task_id : String) (outcome : ExecOutcome) : TaskManager :=
  match outcome with
  | .ret v =>
      (st.update_task_status now task_id .completed (some 100)
        (some (if v.truthy then PyVal.dict [("data", v)] else PyVal.dict []))
        none).1
  | .cancelled =>
      (st.update_task_status now task_id .cancelled none none none).1
  | .raised msg =>
      (st.update_task_status now task_id .failed none none (some msg)).1

/-- One Task Manager operation, for reasoning about arbitrary operation
sequences.  `finishTask` is the (later) resolution of the wrapper
coroutine launched by `executeTask`. -/
inductive TMOp where
  | create (task_id name description : String) (priority : TaskPriority)
      (assigned_to : Option String) (tags : Option (List String))
      (metadata : Option (List (String × PyVal)))
      (dependencies : Option (List String)) (workflow_id : Option String)
  | updateStatus (task_id : String) (status : TaskStatus)
      (progress : Option ℚ) (result : Option PyVal) (error : Option String)
  | deleteTask (task_id : String)
  | executeTask (task_id : String)
  | finishTask (task_id : String) (outcome : ExecOutcome)

/-- Apply one operation at time `now`. -/
def TaskManager.applyOp (st : TaskManager) (now : Nat) : TMOp → TaskManager
  | .create task_id name description priority assigned_to tags metadata
      dependencies workflow_id =>
      (st.create_task task_id now name description priority assigned_to tags
        metadata dependencies workflow_id).1
  | .updateStatus task_id status progress result error =>
      (st.update_task_status now task_id status progress result error).1
  | .deleteTask task_id => (st.delete_task task_id).1
  | .executeTask task_id => (st.execute_task now task_id).1
  | .finishTask task_id outcome => st.execute_wrapper now task_id outcome

/-- Run a timestamped operation sequence. -/
def TaskManager.runOps (st : TaskManager) : List (Nat × TMOp) → TaskManager
  | [] => st
  | (now, op) :: rest => (st.applyOp now op).runOps rest

/-- Python `int(q)` for a rational: truncation toward zero. -/
def pyInt (q : ℚ) : Int :=
  if 0 ≤ q then ⌊q⌋ else -⌊-q⌋

/-- Embedding of the `ProgressUpdate` dataclass of `progress_tracker.py`.
The generated update id is `_generate_update_id` (a hash of meter id and
timestamp, opaque); its pre-hash input string is kept instead. -/
structure ProgressUpdateRec where
  id : String
  entity_type : String
  entity_id : String
  progress : ℚ
  state : ProgressState
  message : Option String
  data : List (String × PyVal)
  timestamp : Nat
deriving Repr

/-- Embedding of the `ProgressMeter` dataclass of `progress_tracker.py`. -/
structure ProgressMeter where
  id : String
  name : String
  total_steps : Int
  current_step : Int
  progress : ℚ
  state : ProgressState
  started_at : Option Nat
  estimated_completion : Option ℚ
  updates : List ProgressUpdateRec
  metadata : List (String × PyVal)
deriving Repr

/-- State of a `ProgressTracker` instance: the `meters` dict.  The
callback list is not modelled: callbacks receive the update record but
cannot change tracker state, and their failures are caught and logged. -/
structure ProgressTracker where
  meters : List (String × ProgressMeter)
deriving Repr

/-- The empty (freshly constructed) progress tracker. -/
def ptEmpty : ProgressTracker := { meters := [] }

/-- `ProgressTracker.create_meter`.  The fresh id comes from
`_generate_meter_id` (opaque hash), so it is passed explicitly.  Note that
`total_steps` is stored without any validation. -/
def ProgressTracker.create_meter (tr : ProgressTracker) (meter_id : String)
    (name : String) (total_steps : Int)
    (metadata : Option (List (String × PyVal))) :
    ProgressTracker × ProgressMeter :=
  let meter : ProgressMeter :=
    { id := meter_id, name := name, total_steps := total_steps,
      current_step := 0, progress := 0, state := .not_started,
      started_at := none, estimated_completion := none, updates := [],
      metadata := metadata.getD [] }
  ({ meters := dictSet tr.meters meter_id meter }, meter)

/-- The `if state is not None:` block of `update_progress`: the state is
assigned, then `started_at` is stamped on first entry to InProgress, and
Completed forces `current_step = total_steps`, `progress = 100`. -/
def ProgressMeter.applyState (m : ProgressMeter) (now : Nat) :
    Option ProgressState → ProgressMeter
  | none => m
  | some s =>
      if s = .in_progress ∧ m.started_at = none then
        { m with state := s, started_at := some now }
      else if s = .completed then
        { m with state := s, current_step := m.total_steps, progress := 100 }
      else { m with state := s }

/-- The `if current_step is not None:` block of `update_progress`.  The
step count is stored unclamped; `current_step / meter.total_steps` raises
`ZeroDivisionError` when `total_steps = 0`, after `current_step` has
already been assigned. -/
def ProgressMeter.applyStep (m : ProgressMeter) :
    Option Int → ProgressMeter × Option PyExc
  | none => (m, none)
  | some cs =>
    if m.total_steps = 0 then
      ({ m with current_step := cs }, some .zeroDivisionError)
    else
      ({ m with
          current_step := cs
          progress := ((cs : ℚ) / (m.total_steps : ℚ)) * 100 }, none)

/-- The `if progress is not None:` block of `update_progress`: clamp to
[0,100] and derive `current_step = int(progress/100 * total_steps)`. -/
def ProgressMeter.applyProgressArg (m : ProgressMeter) :
    Option ℚ → ProgressMeter
  | none => m
  | some p =>
      { m with
          progress := max 0 (min 100 p)
          current_step :=
            pyInt ((max 0 (min 100 p) / 100) * (m.total_steps : ℚ)) }

/-- The `if message is not None:` block of `update_progress`: append a
`ProgressUpdate` record (callbacks are then invoked; their failures are
caught and do not change the meter). -/
def ProgressMeter.applyMessage (m : ProgressMeter) (now : Nat)
    (data : Option (List (String × PyVal))) :
    Option String → ProgressMeter
  | none => m
  | some msg =>
    let upd : ProgressUpdateRec :=
      { id := "update:" ++ m.id, entity_type := "meter", entity_id := m.id,
        progress := m.progress, state := m.state, message := some msg,
        data := data.getD [], timestamp := now }
    { m with updates := m.updates ++ [upd] }

/-- The completion-estimate block of `update_progress`: linear-rate
projection while `started_at` is set (truthy) and the state is
InProgress and progress is positive. -/
def ProgressMeter.applyEta (m : ProgressMeter) (now : Nat) : ProgressMeter :=
  match m.started_at with
  | none => m
  | some t0 =>
    if m.state = .in_progress then
      if 0 < m.progress then
        let elapsed : ℚ := ((now - t0 : Nat) : ℚ)
        let est : ℚ := (now : ℚ) + (elapsed / m.progress) * (100 - m.progress)
        { m with estimated_completion := some est }
      else m
    else m

/-- `ProgressTracker.update_progress`.  Returns the new tracker state and
either the updated meter (`none` when the id is unknown) or the raised
exception; on an exception the partially mutated meter is stored, and the
remaining blocks are skipped. -/
def ProgressTracker.update_progress (tr : ProgressTracker) (now : Nat)
    (meter_id : String) (current_step : Option Int) (progress : Option ℚ)
    (state : Option ProgressState) (message : Option String)
    (data : Option (List (String × PyVal))) :
    ProgressTracker × Except PyExc (Option ProgressMeter) :=
  match dictGet tr.meters meter_id with
  | none => (tr, .ok none)
  | some meter =>
    let meter := meter.applyState now state
    match meter.applyStep current_step with
    | (meter, some exc) =>
        ({ meters := dictSet tr.meters meter_id meter }, .error exc)
    | (meter, none) =>
        let meter := meter.applyProgressArg progress
        let meter := meter.applyMessage now data message
        let meter := meter.applyEta now
        ({ meters := dictSet tr.meters meter_id meter }, .ok (some meter))

/-- `ProgressTracker.get_meter`. -/
def ProgressTracker.get_meter (tr : ProgressTracker) (meter_id : String) :
    Option ProgressMeter :=
  dictGet tr.meters meter_id

/-- `ProgressTracker.delete_meter`. -/
def ProgressTracker.delete_meter (tr : ProgressTracker) (meter_id : String) :
    ProgressTracker × Bool :=
  if (dictGet tr.meters meter_id).isSome then
    ({ meters := dictDel tr.meters meter_id }, true)
  else
    (tr, false)

/-- One Progress Tracker mutating operation, for reasoning about
arbitrary call sequences. -/
inductive PTOp where
  | createMeter (meter_id name : String) (total_steps : Int)
      (metadata : Option (List (String × PyVal)))
  | update (meter_id : String) (current_step : Option Int)
      (progress : Option ℚ) (state : Option ProgressState)
      (message : Option String) (data : Option (List (String × PyVal)))
  | deleteMeter (meter_id : String)

/-- Apply one tracker operation at time `now`. -/
def ProgressTracker.applyOp (tr : ProgressTracker) (now : Nat) :
    PTOp → ProgressTracker
  | .createMeter meter_id name total_steps metadata =>
      (tr.create_meter meter_id name total_steps metadata).1
  | .update meter_id current_step progress state message data =>
      (tr.update_progress now meter_id current_step progress state message
        data).1
  | .deleteMeter meter_id => (tr.delete_meter meter_id).1

/-- Run a timestamped tracker operation sequence. -/
def ProgressTracker.runOps (tr : ProgressTracker) :
    List (Nat × PTOp) → ProgressTracker
  | [] => tr
  | (now, op) :: rest => (tr.applyOp now op).runOps rest

/-- A tool registry entry: `name → callable(kwargs) → result`; the callable
may raise (represented by `Except.error` with the exception's message). -/
abbrev Registry := List (String × (List (String × PyVal) → Except String PyVal))

/-- Step kind together with the parts of `step_config` that
`_execute_step` reads for that kind.  A caller-supplied execution function
is represented by its outcome; a condition callable by its function on the
context dict (which may raise). -/
inductive StepSpec where
  | taskStep (description : String) (execution_func : Option ExecOutcome)
  | toolCall (tool_name : String) (tool_args : List (String × PyVal))
  | delay (seconds : Option ℚ)
  | condition (cond : Option (List (String × PyVal) → Except String PyVal))
      (context : List (String × PyVal))
  | parallel (subs : List (String × String × StepSpec))

/-- What a step's `result` field can hold: a Python value, or (for a Task
step with an execution function) the `Optional[Task]` returned by
`execute_task`. -/
inductive StepResult where
  | pyval (v : PyVal)
  | taskObj (t : Option Task)

/-- Embedding of the `WorkflowStep` dataclass of `workflow_engine.py`. -/
structure WStep where
  id : String
  name : String
  spec : StepSpec
  depends_on : List String
  status : TaskStatus
  result : Option StepResult
  error : Option String

/-- Embedding of the `Workflow` dataclass of `workflow_engine.py`. -/
structure Workflow where
  id : String
  name : String
  description : String
  steps : List WStep
  status : WorkflowStatus
  created_at : Nat
  started_at : Option Nat
  completed_at : Option Nat
  progress : ℚ
  metadata : List (String × PyVal)

/-- State of a `WorkflowEngine` instance: the owned task manager, the
`workflows` dict, the key set of `_running_workflows` and a counter for
fresh task ids (the source hashes name+timestamp; only freshness is
relevant). -/
structure WorkflowEngine where
  task_manager : TaskManager
  workflows : List (String × Workflow)
  running : List String
  fresh : Nat

/-- Task-manager state threaded through one workflow run. -/
structure EngineSt where
  tm : TaskManager
  fresh : Nat

/-- `str(e)` of a modelled exception. -/
def PyExc.msg : PyExc → String
  | .valueError m => m
  | .attributeError m => m
  | .zeroDivisionError => "division by zero"
  | .cancelledError => ""
  | .other m => m

mutual

/-- The kind dispatch inside the `try` of `_execute_step`.  A Task step
with an execution function launches `execute_task`'s wrapper coroutine;
the workflow does not await it, so its later resolution is outside this
run.  `asyncio.gather` over parallel sub-steps is modelled sequentially in
declaration order; `_execute_step` has no `return` statement, so each
gathered sub-result is Python `None`. -/
def execSpec (reg : Registry) (now : Nat) (stepId stepName : String) :
    StepSpec → EngineSt → EngineSt × Except PyExc StepResult
  | .taskStep descr exf, st =>
      let task_id := "task_" ++ toString st.fresh
      let r := st.tm.create_task task_id now stepName descr .medium none none
        (some [("step_id", PyVal.str stepId), ("workflow", PyVal.bool true)])
        none none
      let st := { tm := r.1, fresh := st.fresh + 1 }
      match exf with
      | some _ =>
          let e := st.tm.execute_task now task_id
          ({ st with tm := e.1 }, .ok (.taskObj e.2.1))
      | none => (st, .ok (.pyval (PyVal.dict [("task_id", PyVal.str task_id)])))
  | .toolCall tool_name tool_args, st =>
      match dictGet reg tool_name with
      | none => (st, .error (.valueError ("Tool not found: " ++ tool_name)))
      | some f =>
          match f tool_args with
          | .ok v => (st, .ok (.pyval v))
          | .error m => (st, .error (.other m))
  | .delay seconds, st =>
      let s := seconds.getD 1
      (st, .ok (.pyval (PyVal.dict [("delayed", PyVal.float s)])))
  | .condition cond context, st =>
      match cond with
      | none => (st, .error (.valueError "Condition function not provided"))
      | some f =>
          match f context with
          | .ok v => (st, .ok (.pyval (PyVal.dict [("condition_result", v)])))
          | .error m => (st, .error (.other m))
  | .parallel subs, st =>
      match execSpecList reg now stepId subs st with
      | (st, none) =>
          (st, .ok (.pyval (PyVal.dict [("parallel_results",
            PyVal.list (subs.map (fun _ => PyVal.none)))])))
      | (st, some e) => (st, .error e)

/-- Run the parallel sub-steps in declaration order, keeping the first
raised exception (all sub-steps execute; see `execSpec`). -/
def execSpecList (reg : Registry) (now : Nat) (stepId : String) :
    List (String × String × StepSpec) → EngineSt → EngineSt × Option PyExc
  | [], st => (st, none)
  | (sid, sname, sspec) :: rest, st =>
      let r := execSpec reg now (stepId ++ "_" ++ sid) sname sspec st
      let r2 := execSpecList reg now stepId rest r.1
      (r2.1,
        match r.2 with
        | .error e => some e
        | .ok _ => r2.2)

end

/-- `WorkflowEngine._execute_step`: set InProgress, dispatch on the kind,
record Completed+result on success or Failed+error and re-raise on
failure.  (The Python function itself returns `None`.) -/
def execStep (reg : Registry) (now : Nat) (step : WStep) (st : EngineSt) :
    EngineSt × WStep × Option PyExc :=
  let step := { step with status := TaskStatus.in_progress }
  match execSpec reg now step.id step.name step.spec st with
  | (st, .ok r) =>
      (st, { step with status := .completed, result := some r }, none)
  | (st, .error e) =>
      (st, { step with status := .failed, error := some e.msg }, some e)

/-- The step loop of `_execute_workflow_task`: execute the steps in
declared order, advancing `workflow.progress` after each success; stop at
the first raised exception, leaving the remaining steps untouched.  The
per-dependency check (source lines 166–172) only logs and sleeps — its
`continue` advances the inner loop over dependency ids — so it has no
effect on this state.  `total` is `len(workflow.steps)`; `k` is
`steps_executed`. -/
def runSteps (reg : Registry) (now : Nat) (total : Nat) :
    List WStep → Nat → EngineSt → ℚ →
    EngineSt × List WStep × ℚ × Option PyExc
  | [], _, st, prog => (st, [], prog, none)
  | step :: rest, k, st, prog =>
      match execStep reg now step st with
      | (st, step', none) =>
          let prog := (((k + 1 : Nat) : ℚ) / (total : ℚ)) * 100
          let r := runSteps reg now total rest (k + 1) st prog
          (r.1, step' :: r.2.1, r.2.2.1, r.2.2.2)
      | (st, step', some e) => (st, step' :: rest, prog, some e)

/-- `WorkflowEngine._execute_workflow_task`.  On success the workflow is
marked Completed with `completed_at` stamped.  An `asyncio.CancelledError`
marks it Cancelled (and is swallowed).  Any other exception reaches
`workflow.status = WorkflowStatus.FALED` — an attribute that does not
exist — so the handler itself raises `AttributeError`, the status is left
as it was (Running) and the `AttributeError` propagates out of the
coroutine. -/
def executeWorkflowTask (reg : Registry) (t1 : Nat) (wf : Workflow)
    (st : EngineSt) : EngineSt × Workflow × Option PyExc :=
  match runSteps reg t1 wf.steps.length wf.steps 0 st wf.progress with
  | (st, steps', prog, none) =>
      (st, { wf with
               steps := steps'
               progress := prog
               status := .completed
               completed_at := some t1 }, none)
  | (st, steps', prog, some .cancelledError) =>
      (st, { wf with
               steps := steps'
               progress := prog
               status := .cancelled }, none)
  | (st, steps', prog, some _) =>
      (st, { wf with steps := steps', progress := prog },
        some (.attributeError "FALED"))

/-- `WorkflowEngine.create_workflow` (fresh id passed explicitly;
`now` stands for `loop.time()`). -/
def WorkflowEngine.create_workflow (eng : WorkflowEngine)
    (workflow_id : String) (now : Nat) (name description : String)
    (steps : List WStep) (metadata : Option (List (String × PyVal))) :
    WorkflowEngine × Workflow :=
  let wf : Workflow :=
    { id := workflow_id, name := name, description := description,
      steps := steps, status := .pending, created_at := now,
      started_at := none, completed_at := none, progress := 0,
      metadata := metadata.getD [] }
  ({ eng with workflows := dictSet eng.workflows workflow_id wf }, wf)

/-- `WorkflowEngine.get_workflow`. -/
def WorkflowEngine.get_workflow (eng : WorkflowEngine)
    (workflow_id : String) : Option Workflow :=
  dictGet eng.workflows workflow_id

/-- `WorkflowEngine.execute_workflow`.  Raises `ValueError` when the id is
unknown.  Otherwise: status Running, `started_at := t0`, the run coroutine
is registered, awaited to completion and deregistered (in its `finally`);
the caller gets the workflow on success and the propagated exception
otherwise. -/
def WorkflowEngine.execute_workflow (eng : WorkflowEngine) (reg : Registry)
    (workflow_id : String) (t0 t1 : Nat) :
    WorkflowEngine × Except PyExc Workflow :=
  match dictGet eng.workflows workflow_id with
  | none => (eng, .error (.valueError ("Workflow not found: " ++ workflow_id)))
  | some wf =>
      let wf := { wf with status := .running, started_at := some t0 }
      let r := executeWorkflowTask reg t1 wf
        { tm := eng.task_manager, fresh := eng.fresh }
      let eng' : WorkflowEngine :=
        { task_manager := r.1.tm
          workflows := dictSet eng.workflows workflow_id r.2.1
          running := eng.running.filter (fun x => x ≠ workflow_id)
          fresh := r.1.fresh }
      match r.2.2 with
      | none => (eng', .ok r.2.1)
      | some e => (eng', .error e)

/-- `WorkflowEngine.pause_workflow`: only acts when a running handle is
registered for the id. -/
def WorkflowEngine.pause_workflow (eng : WorkflowEngine)
    (workflow_id : String) : WorkflowEngine × Bool :=
  if workflow_id ∈ eng.running then
    let workflows :=
      match dictGet eng.workflows workflow_id with
      | some wf =>
          dictSet eng.workflows workflow_id { wf with status := .paused }
      | none => eng.workflows
    ({ eng with workflows := workflows }, true)
  else (eng, false)

/-- `WorkflowEngine.cancel_workflow`: only acts when a running handle is
registered for the id. -/
def WorkflowEngine.cancel_workflow (eng : WorkflowEngine)
    (workflow_id : String) : WorkflowEngine × Bool :=
  if workflow_id ∈ eng.running then
    let workflows :=
      match dictGet eng.workflows workflow_id with
      | some wf =>
          dictSet eng.workflows workflow_id { wf with status := .cancelled }
      | none => eng.workflows
    ({ eng with workflows := workflows }, true)
  else (eng, false)

/-- `WorkflowEngine.delete_workflow`. -/
def WorkflowEngine.delete_workflow (eng : WorkflowEngine)
    (workflow_id : String) : WorkflowEngine × Bool :=
  if (dictGet eng.workflows workflow_id).isSome then
    ({ eng with workflows := dictDel eng.workflows workflow_id }, true)
  else (eng, false)

/-- `WorkflowEngine.list_workflows`. -/
def WorkflowEngine.list_workflows (eng : WorkflowEngine)
    (status : Option WorkflowStatus) : List Workflow :=
  let workflows := dictValues eng.workflows
  match status with
  | some s => workflows.filter (fun (w : Workflow) => w.status = s)
  | none => workflows

theorem dictGet_dictSet_self {α : Type} (d : List (String × α)) (k : String)
    (v : α) : dictGet (dictSet d k v) k = some v := by
  induction d with
  | nil => simp [dictGet, dictSet]
  | cons hd tl ih =>
      obtain ⟨k', v'⟩ := hd
      by_cases hk : k' = k
      · simp [dictGet, dictSet, hk]
      · simp [dictGet, dictSet, hk, ih]

theorem mem_dictSet {α : Type} {d : List (String × α)} {k : String} {v : α}
    {p : String × α} (hp : p ∈ dictSet d k v) : p = (k, v) ∨ p ∈ d := by
  induction d with
  | nil => simpa [dictSet] using hp
  | cons hd tl ih =>
      obtain ⟨k', v'⟩ := hd
      by_cases hk : k' = k
      · rw [dictSet, if_pos hk] at hp
        rcases List.mem_cons.mp hp with h | h
        · exact Or.inl h
        · exact Or.inr (List.mem_cons_of_mem _ h)
      · rw [dictSet, if_neg hk] at hp
        rcases List.mem_cons.mp hp with h | h
        · exact Or.inr (h ▸ List.mem_cons_self _ _)
        · rcases ih h with h' | h'
          · exact Or.inl h'
          · exact Or.inr (List.mem_cons_of_mem _ h')

theorem mem_dictDel {α : Type} {d : List (String × α)} {k : String}
    {p : String × α} (hp : p ∈ dictDel d k) : p ∈ d := by
  induction d with
  | nil => simp [dictDel] at hp
  | cons hd tl ih =>
      obtain ⟨k', v'⟩ := hd
      by_cases hk : k' = k
      · rw [dictDel, if_pos hk] at hp
        exact List.mem_cons_of_mem _ hp
      · rw [dictDel, if_neg hk] at hp
        rcases List.mem_cons.mp hp with h | h
        · exact h ▸ List.mem_cons_self _ _
        · exact List.mem_cons_of_mem _ (ih h)

theorem dictGet_mem {α : Type} {d : List (String × α)} {k : String} {v : α}
    (h : dictGet d k = some v) : (k, v) ∈ d := by
  induction d with
  | nil => simp [dictGet] at h
  | cons hd tl ih =>
      obtain ⟨k', v'⟩ := hd
      by_cases hk : k' = k
      · rw [dictGet, if_pos hk] at h
        obtain rfl : v' = v := by simpa using h
        exact hk ▸ List.mem_cons_self _ _
      · rw [dictGet, if_neg hk] at h
        exact List.mem_cons_of_mem _ (ih h)

/-- A concrete task used by witnesses. -/
def sampleTask : Task :=
  { id := "a"
    name := "n"
    description := ""
    status := .in_progress
    priority := .medium
    created_at := 0
    updated_at := 0
    completed_at := none
    assigned_to := none
    tags := []
    progress := 40
    result := none
    error := none
    metadata := []
    dependencies := []
    workflow_id := none }

/-- A concrete one-task manager state (with a running handle for "a")
used by witnesses. -/
def sampleTM : TaskManager :=
  { tasks := [("a", sampleTask)], running := ["a"] }

/-- C3 (counterexample): `create_task` with an empty name does not fail: it
returns — and stores — a brand-new task with status Pending and progress 0.
The source contains no name validation and no `InvalidArgument` error path
at all, contradicting "fails with an InvalidArgument error ... if the
supplied name is empty". -/
theorem c3_counterexample :
    ((tmEmpty.create_task "id0" 0 "" "desc" .medium none none none none
        none).2.status = TaskStatus.pending) ∧
    ((tmEmpty.create_task "id0" 0 "" "desc" .medium none none none none
        none).2.progress = 0) ∧
    ((tmEmpty.create_task "id0" 0 "" "desc" .medium none none none none
        none).1.tasks.length = 1) :=
  ⟨rfl, rfl, rfl⟩

/-- C3 (amended): task creation never fails; for every name — the empty
string included — it returns a new task with status Pending and progress 0,
and stores it in the table under the generated id. -/
theorem c3_amended (st : TaskManager) (task_id : String) (now : Nat)
    (name description : String) (priority : TaskPriority)
    (assigned_to : Option String) (tags : Option (List String))
    (metadata : Option (List (String × PyVal)))
    (dependencies : Option (List String)) (workflow_id : Option String) :
    (st.create_task task_id now name description priority assigned_to tags
        metadata dependencies workflow_id).2.status = TaskStatus.pending ∧
    (st.create_task task_id now name description priority assigned_to tags
        metadata dependencies workflow_id).2.progress = 0 ∧
    dictGet (st.create_task task_id now name description priority assigned_to
        tags metadata dependencies workflow_id).1.tasks task_id =
      some (st.create_task task_id now name description priority assigned_to
        tags metadata dependencies workflow_id).2 := by
  refine ⟨rfl, rfl, ?_⟩
  simp [TaskManager.create_task, dictGet_dictSet_self]

/-- C7 (confirmed): for every existing task, `update_task_status` with
status Completed forces progress to 100 and stamps `completed_at`; when a
running handle is registered under the id, it is cancelled and removed
from the running-task table in the same call. -/
theorem c7_update_completed (st : TaskManager) (now : Nat) (task_id : String)
    (progress : Option ℚ) (result : Option PyVal) (error : Option String)
    (task : Task) (hget : dictGet st.tasks task_id = some task) :
    ∃ t', (st.update_task_status now task_id .completed progress result
        error).2.1 = some t' ∧
      t'.progress = 100 ∧
      t'.completed_at = some now ∧
      dictGet (st.update_task_status now task_id .completed progress result
        error).1.tasks task_id = some t' ∧
      task_id ∉ (st.update_task_status now task_id .completed progress result
        error).1.running ∧
      (task_id ∈ st.running →
        (st.update_task_status now task_id .completed progress result
          error).2.2 = [task_id]) := by
  unfold TaskManager.update_task_status
  rw [hget]
  simp only [reduceIte]
  refine ⟨_, rfl, rfl, rfl, ?_, ?_, ?_⟩
  · exact dictGet_dictSet_self _ _ _
  · simp
  · intro hmem
    simp [hmem]

/-- C7 witness. -/
theorem c7_update_completed_witness :
    ∃ t', (sampleTM.update_task_status 7 "a" .completed none none
        none).2.1 = some t' ∧
      t'.progress = 100 ∧
      t'.completed_at = some 7 ∧
      dictGet (sampleTM.update_task_status 7 "a" .completed none none
        none).1.tasks "a" = some t' ∧
      "a" ∉ (sampleTM.update_task_status 7 "a" .completed none none
        none).1.running ∧
      ("a" ∈ sampleTM.running →
        (sampleTM.update_task_status 7 "a" .completed none none
          none).2.2 = ["a"]) :=
  c7_update_completed sampleTM 7 "a" none none none sampleTask rfl

theorem depMsg_ne_empty (s : String) :
    ("Dependencies not completed: " ++ s) ≠ "" := by
  intro h
  have h2 := congrArg String.length h
  rw [String.length_append] at h2
  have hl : ("Dependencies not completed: " : String).length = 28 := rfl
  have hr : ("" : String).length = 0 := rfl
  omega

/-- C5 (confirmed): executing a task that has at least one unmet
dependency (not Completed, or unknown id) leaves it Pending with a
non-empty error message listing every unmet dependency id, never reaches
InProgress, does not launch the execution function, and leaves the
running-task table unchanged. -/
theorem c5_execute_unmet_deps (st : TaskManager) (now : Nat)
    (task_id : String) (task : Task)
    (hget : dictGet st.tasks task_id = some task)
    (hunmet : unmetDeps st task ≠ []) :
    ∃ t', dictGet (st.execute_task now task_id).1.tasks task_id = some t' ∧
      t'.status = TaskStatus.pending ∧
      t'.status ≠ TaskStatus.in_progress ∧
      t'.error = some ("Dependencies not completed: "
        ++ joinComma (unmetDeps st task)) ∧
      (∀ s, t'.error = some s → s ≠ "") ∧
      (∀ d ∈ task.dependencies, depUnmet st d = true →
        d ∈ unmetDeps st task) ∧
      (st.execute_task now task_id).2.2 = false ∧
      (st.execute_task now task_id).1.running = st.running := by
  simp only [TaskManager.execute_task, hget, if_pos hunmet,
    TaskManager.update_task_status]
  refine ⟨_, dictGet_dictSet_self _ _ _, ?_, ?_, ?_, ?_, ?_, ?_, ?_⟩
  all_goals try trivial
  · simp
  · intro s hs
    obtain rfl : ("Dependencies not completed: "
        ++ joinComma (unmetDeps st task)) = s := by simpa using hs
    exact depMsg_ne_empty _
  · intro d hd hun
    exact List.mem_filter.mpr ⟨hd, hun⟩

/-- A concrete task with an unmet (unknown) dependency, for witnesses. -/
def sampleTaskDep : Task :=
  { id := "b"
    name := "nb"
    description := ""
    status := .pending
    priority := .medium
    created_at := 0
    updated_at := 0
    completed_at := none
    assigned_to := none
    tags := []
    progress := 0
    result := none
    error := none
    metadata := []
    dependencies := ["c"]
    workflow_id := none }

/-- A concrete manager holding `sampleTaskDep`, for witnesses. -/
def sampleTMdep : TaskManager :=
  { tasks := [("b", sampleTaskDep)], running := [] }

/-- C5 witness. -/
theorem c5_execute_unmet_deps_witness :
    ∃ t', dictGet (sampleTMdep.execute_task 3 "b").1.tasks "b" = some t' ∧
      t'.status = TaskStatus.pending ∧
      t'.status ≠ TaskStatus.in_progress ∧
      t'.error = some ("Dependencies not completed: "
        ++ joinComma (unmetDeps sampleTMdep sampleTaskDep)) ∧
      (∀ s, t'.error = some s → s ≠ "") ∧
      (∀ d ∈ sampleTaskDep.dependencies, depUnmet sampleTMdep d = true →
        d ∈ unmetDeps sampleTMdep sampleTaskDep) ∧
      (sampleTMdep.execute_task 3 "b").2.2 = false ∧
      (sampleTMdep.execute_task 3 "b").1.running = sampleTMdep.running :=
  c5_execute_unmet_deps sampleTMdep 3 "b" sampleTaskDep rfl (by decide)

/-- The part of the C4 invariant that the code maintains: every task whose
status is Completed has `completed_at` stamped. -/
def completedStamped (st : TaskManager) : Prop :=
  ∀ p ∈ st.tasks, (p : String × Task).2.status = TaskStatus.completed →
    (p.2.completed_at).isSome

theorem completedStamped_update (st : TaskManager) (now : Nat)
    (task_id : String) (status : TaskStatus) (progress : Option ℚ)
    (result : Option PyVal) (error : Option String)
    (h : completedStamped st) :
    completedStamped (st.update_task_status now task_id status progress
      result error).1 := by
  cases hget : dictGet st.tasks task_id with
  | none =>
      intro p hp hc
      apply h p ?_ hc
      simpa only [TaskManager.update_task_status, hget] using hp
  | some task =>
      by_cases hs : status = TaskStatus.completed
      · subst hs
        intro p hp hc
        simp only [TaskManager.update_task_status, hget, reduceIte] at hp
        rcases mem_dictSet hp with heq | hmem
        · subst heq
          exact rfl
        · exact h p hmem hc
      · intro p hp hc
        simp only [TaskManager.update_task_status, hget, if_neg hs] at hp
        rcases mem_dictSet hp with heq | hmem
        · exfalso
          apply hs
          subst heq
          revert hc
          cases progress <;> cases result <;> cases error <;>
            exact fun hc => hc
        · exact h p hmem hc

theorem completedStamped_applyOp (st : TaskManager) (now : Nat) (op : TMOp)
    (h : completedStamped st) : completedStamped (st.applyOp now op) := by
  cases op with
  | create task_id name description priority assigned_to tags metadata
      deps wf =>
      intro p hp hc
      simp only [TaskManager.applyOp, TaskManager.create_task] at hp
      rcases mem_dictSet hp with heq | hmem
      · subst heq
        simp at hc
      · exact h p hmem hc
  | updateStatus task_id status progress result error =>
      exact completedStamped_update st now task_id status progress result
        error h
  | deleteTask task_id =>
      intro p hp hc
      simp only [TaskManager.applyOp, TaskManager.delete_task] at hp
      by_cases hex : (dictGet st.tasks task_id).isSome
      · rw [if_pos hex] at hp
        exact h p (mem_dictDel hp) hc
      · rw [if_neg hex] at hp
        exact h p hp hc
  | executeTask task_id =>
      show completedStamped (st.execute_task now task_id).1
      cases hget : dictGet st.tasks task_id with
      | none =>
          intro p hp hc
          apply h p ?_ hc
          simpa only [TaskManager.execute_task, hget] using hp
      | some task =>
          by_cases hd : unmetDeps st task ≠ []
          · intro p hp hc
            simp only [TaskManager.execute_task, hget, if_pos hd] at hp
            exact completedStamped_update st now task_id .pending none none
              (some ("Dependencies not completed: "
                ++ joinComma (unmetDeps st task))) h p hp hc
          · intro p hp hc
            simp only [TaskManager.execute_task, hget, if_neg hd] at hp
            exact completedStamped_update st now task_id .in_progress
              (some 0) none none h p hp hc
  | finishTask task_id outcome =>
      cases outcome with
      | ret v =>
          exact completedStamped_update st now task_id .completed (some 100)
            (some (if v.truthy then PyVal.dict [("data", v)]
              else PyVal.dict [])) none h
      | cancelled =>
          exact completedStamped_update st now task_id .cancelled none none
            none h
      | raised msg =>
          exact completedStamped_update st now task_id .failed none none
            (some msg) h

theorem completedStamped_runOps (st : TaskManager)
    (ops : List (Nat × TMOp)) (h : completedStamped st) :
    completedStamped (st.runOps ops) := by
  induction ops generalizing st with
  | nil => exact h
  | cons hd tl ih => exact ih _ (completedStamped_applyOp _ _ _ h)

/-- C4 (counterexample): after `create` (with an unknown dependency id)
and `execute`, the task's error field is set while its status is Pending —
refuting "the error field is set only when the task's status is Failed". -/
theorem c4_counterexample :
    ((TaskManager.runOps tmEmpty [(0, .create "a" "n" "" .medium none none
        none (some ["zzz"]) none), (1, .executeTask "a")]).get_task
        "a").map Task.status = some TaskStatus.pending ∧
    ((TaskManager.runOps tmEmpty [(0, .create "a" "n" "" .medium none none
        none (some ["zzz"]) none), (1, .executeTask "a")]).get_task
        "a").map Task.error = some (some "Dependencies not completed: zzz")
      ∧ TaskStatus.pending ≠ TaskStatus.failed :=
  ⟨rfl, rfl, by decide⟩

/-- C4 (amended): for every task reachable through any sequence of Task
Manager operations, `completed_at` is set whenever the task's status is
Completed.  (The converse fails — `completed_at` survives a later status
downgrade — and the error field can also be set at non-Failed statuses,
e.g. Pending after a dependency-unmet execute; see the counterexample.) -/
theorem c4_amended (ops : List (Nat × TMOp)) (p : String × Task)
    (hp : p ∈ (TaskManager.runOps tmEmpty ops).tasks)
    (hc : p.2.status = TaskStatus.completed) : (p.2.completed_at).isSome :=
  completedStamped_runOps tmEmpty ops
    (fun q hq => absurd hq (List.not_mem_nil q)) p hp hc

/-- C4 witness. -/
theorem c4_amended_witness :
    (({ id := "a"
        name := "n"
        description := ""
        status := .completed
        priority := .medium
        created_at := 0
        updated_at := 1
        completed_at := some 1
        assigned_to := none
        tags := []
        progress := 100
        result := none
        error := none
        metadata := []
        dependencies := []
        workflow_id := none } : Task).completed_at).isSome :=
  c4_amended
    [(0, .create "a" "n" "" .medium none none none none none),
     (1, .updateStatus "a" .completed none none none)]
    ("a",
      { id := "a"
        name := "n"
        description := ""
        status := .completed
        priority := .medium
        created_at := 0
        updated_at := 1
        completed_at := some 1
        assigned_to := none
        tags := []
        progress := 100
        result := none
        error := none
        metadata := []
        dependencies := []
        workflow_id := none })
    (List.Mem.head _) rfl

/-- C8 (counterexample): an execution function returning the falsy value 0
leaves its task Completed with result `{}` (the empty dict) instead of
`{"data": 0}` — the wrapper's `{"data": result} if result else {}` drops
falsy return values, refuting the claim for empty/zero/falsy results. -/
theorem c8_counterexample :
    ((((tmEmpty.create_task "a" 0 "n" "" .medium none none none none
        none).1.execute_task 1 "a").1.execute_wrapper 2 "a"
        (.ret (PyVal.int 0))).get_task "a").map Task.status
      = some TaskStatus.completed ∧
    ((((tmEmpty.create_task "a" 0 "n" "" .medium none none none none
        none).1.execute_task 1 "a").1.execute_wrapper 2 "a"
        (.ret (PyVal.int 0))).get_task "a").map Task.result
      = some (some (PyVal.dict [])) ∧
    (PyVal.dict [] : PyVal) ≠ PyVal.dict [("data", PyVal.int 0)] :=
  ⟨rfl, rfl, by simp⟩

/-- C8 (amended): when the execution function returns a value `v`, the
task ends Completed with progress 100 and `completed_at` stamped, and its
result is `{"data": v}` when `v` is truthy but `{}` (the empty dict) when
`v` is falsy (None, zero, empty string/list/dict, False). -/
theorem c8_amended (st : TaskManager) (now : Nat) (task_id : String)
    (task : Task) (v : PyVal)
    (hget : dictGet st.tasks task_id = some task) :
    ∃ t', dictGet (st.execute_wrapper now task_id (.ret v)).tasks task_id
        = some t' ∧
      t'.status = TaskStatus.completed ∧
      t'.progress = 100 ∧
      t'.completed_at = some now ∧
      t'.result = some (if v.truthy then PyVal.dict [("data", v)]
        else PyVal.dict []) := by
  simp only [TaskManager.execute_wrapper, TaskManager.update_task_status,
    hget]
  refine ⟨_, dictGet_dictSet_self _ _ _, ?_, ?_, ?_, ?_⟩
  all_goals trivial

/-- C8 witness. -/
theorem c8_amended_witness :
    ∃ t', dictGet (sampleTM.execute_wrapper 9 "a"
        (.ret (PyVal.int 7))).tasks "a" = some t' ∧
      t'.status = TaskStatus.completed ∧
      t'.progress = 100 ∧
      t'.completed_at = some 9 ∧
      t'.result = some (if (PyVal.int 7).truthy then
        PyVal.dict [("data", PyVal.int 7)] else PyVal.dict []) :=
  c8_amended sampleTM 9 "a" sampleTask (PyVal.int 7) rfl

/-- A one-step workflow whose single ToolCall step names an unregistered
tool, exercising the step-failure path. -/
def failingWorkflow : Workflow :=
  { id := "w"
    name := "w"
    description := ""
    steps := [{ id := "s1"
                name := "s1"
                spec := .toolCall "missing" []
                depends_on := []
                status := .pending
                result := none
                error := none }]
    status := .pending
    created_at := 0
    started_at := none
    completed_at := none
    progress := 0
    metadata := [] }

/-- An engine holding only `failingWorkflow`. -/
def failingEngine : WorkflowEngine :=
  { task_manager := tmEmpty
    workflows := [("w", failingWorkflow)]
    running := []
    fresh := 0 }

/-- C1 (code_bug): a workflow whose step sequence raises an unhandled,
non-cancellation exception does NOT get status Failed, and the engine does
crash the caller with an unrelated error: the handler's
`WorkflowStatus.FALED` (sic — source line 188; the enum only has FAILED)
itself raises `AttributeError`, so the stored workflow stays Running (only
the failing step is marked Failed) and the `await` in `execute_workflow`
re-raises the `AttributeError` to the caller. -/
theorem c1_failed_handler_bug :
    (failingEngine.execute_workflow [] "w" 0 1).2
        = Except.error (PyExc.attributeError "FALED") ∧
    ((failingEngine.execute_workflow [] "w" 0 1).1.get_workflow "w").map
        Workflow.status = some WorkflowStatus.running ∧
    ((failingEngine.execute_workflow [] "w" 0 1).1.get_workflow "w").map
        (fun w => w.steps.map WStep.status) = some [TaskStatus.failed] ∧
    WorkflowStatus.running ≠ WorkflowStatus.failed :=
  ⟨rfl, rfl, rfl, by decide⟩

/-- C10 (confirmed): executing a workflow whose step list is empty
terminates without error, sets status Completed and `completed_at`, and
leaves progress at 0 — the per-step progress assignment (whose divisor is
the step count) is never reached, so no division by zero occurs. -/
theorem c10_empty_workflow (eng : WorkflowEngine) (reg : Registry)
    (workflow_id : String) (t0 t1 : Nat) (wf : Workflow)
    (hget : dictGet eng.workflows workflow_id = some wf)
    (hsteps : wf.steps = []) (hprog : wf.progress = 0) :
    ∃ wf', (eng.execute_workflow reg workflow_id t0 t1).2
        = Except.ok wf' ∧
      wf'.status = WorkflowStatus.completed ∧
      wf'.completed_at = some t1 ∧
      wf'.started_at = some t0 ∧
      wf'.progress = 0 ∧
      dictGet (eng.execute_workflow reg workflow_id t0 t1).1.workflows
        workflow_id = some wf' := by
  simp only [WorkflowEngine.execute_workflow, hget, executeWorkflowTask,
    hsteps, hprog, runSteps]
  exact ⟨_, rfl, rfl, rfl, rfl, rfl, dictGet_dictSet_self _ _ _⟩

/-- A workflow with no steps, for the C10 witness. -/
def emptyWorkflow : Workflow :=
  { id := "e"
    name := "e"
    description := ""
    steps := []
    status := .pending
    created_at := 0
    started_at := none
    completed_at := none
    progress := 0
    metadata := [] }

/-- An engine holding only `emptyWorkflow`. -/
def emptyWFEngine : WorkflowEngine :=
  { task_manager := tmEmpty
    workflows := [("e", emptyWorkflow)]
    running := []
    fresh := 0 }

/-- C10 witness. -/
theorem c10_empty_workflow_witness :
    ∃ wf', (emptyWFEngine.execute_workflow [] "e" 0 1).2
        = Except.ok wf' ∧
      wf'.status = WorkflowStatus.completed ∧
      wf'.completed_at = some 1 ∧
      wf'.started_at = some 0 ∧
      wf'.progress = 0 ∧
      dictGet (emptyWFEngine.execute_workflow [] "e" 0 1).1.workflows "e"
        = some wf' :=
  c10_empty_workflow emptyWFEngine [] "e" 0 1 emptyWorkflow rfl rfl rfl

/-- An engine with no workflows at all. -/
def emptyEngine : WorkflowEngine :=
  { task_manager := tmEmpty
    workflows := []
    running := []
    fresh := 0 }

/-- C9 (counterexample): `execute_workflow` on an unknown id raises
`ValueError` ("Workflow not found: ...") instead of returning an absence
marker, refuting "the operation never raises ... including workflow
execute". -/
theorem c9_counterexample :
    (emptyEngine.execute_workflow [] "nope" 0 0).2
      = Except.error (PyExc.valueError "Workflow not found: nope") := rfl

/-- C9 (amended): for unknown ids, every modelled Task Manager, Workflow
Engine and Progress Tracker operation except `execute_workflow` returns an
absence marker (None / False) without raising and leaves the stored state
unchanged; `execute_workflow` alone raises `ValueError`. -/
theorem c9_amended (tm : TaskManager) (eng : WorkflowEngine)
    (tr : ProgressTracker) (id : String) (now : Nat) (status : TaskStatus)
    (progress : Option ℚ) (result : Option PyVal) (error : Option String)
    (reg : Registry) (t0 t1 : Nat) (cs : Option Int) (pq : Option ℚ)
    (ps : Option ProgressState) (pmsg : Option String)
    (pdata : Option (List (String × PyVal)))
    (htm : dictGet tm.tasks id = none)
    (heng : dictGet eng.workflows id = none)
    (hrun : id ∉ eng.running)
    (htr : dictGet tr.meters id = none) :
    tm.get_task id = none ∧
    tm.update_task_status now id status progress result error
        = (tm, none, []) ∧
    tm.delete_task id = (tm, false, []) ∧
    tm.execute_task now id = (tm, none, false) ∧
    eng.get_workflow id = none ∧
    eng.pause_workflow id = (eng, false) ∧
    eng.cancel_workflow id = (eng, false) ∧
    eng.delete_workflow id = (eng, false) ∧
    eng.execute_workflow reg id t0 t1
        = (eng, Except.error (PyExc.valueError
            ("Workflow not found: " ++ id))) ∧
    tr.get_meter id = none ∧
    tr.update_progress now id cs pq ps pmsg pdata = (tr, .ok none) ∧
    tr.delete_meter id = (tr, false) := by
  refine ⟨?_, ?_, ?_, ?_, ?_, ?_, ?_, ?_, ?_, ?_, ?_, ?_⟩
  · simp [TaskManager.get_task, htm]
  · simp [TaskManager.update_task_status, htm]
  · simp [TaskManager.delete_task, htm]
  · simp [TaskManager.execute_task, htm]
  · simp [WorkflowEngine.get_workflow, heng]
  · simp [WorkflowEngine.pause_workflow, hrun]
  · simp [WorkflowEngine.cancel_workflow, hrun]
  · simp [WorkflowEngine.delete_workflow, heng]
  · simp [WorkflowEngine.execute_workflow, heng]
  · simp [ProgressTracker.get_meter, htr]
  · simp [ProgressTracker.update_progress, htr]
  · simp [ProgressTracker.delete_meter, htr]

/-- C9 witness. -/
theorem c9_amended_witness :
    tmEmpty.get_task "nope" = none ∧
    tmEmpty.update_task_status 0 "nope" .pending none none none
        = (tmEmpty, none, []) ∧
    tmEmpty.delete_task "nope" = (tmEmpty, false, []) ∧
    tmEmpty.execute_task 0 "nope" = (tmEmpty, none, false) ∧
    emptyEngine.get_workflow "nope" = none ∧
    emptyEngine.pause_workflow "nope" = (emptyEngine, false) ∧
    emptyEngine.cancel_workflow "nope" = (emptyEngine, false) ∧
    emptyEngine.delete_workflow "nope" = (emptyEngine, false) ∧
    emptyEngine.execute_workflow [] "nope" 0 0
        = (emptyEngine, Except.error (PyExc.valueError
            ("Workflow not found: " ++ "nope"))) ∧
    ptEmpty.get_meter "nope" = none ∧
    ptEmpty.update_progress 0 "nope" none none none none none
        = (ptEmpty, .ok none) ∧
    ptEmpty.delete_meter "nope" = (ptEmpty, false) :=
  c9_amended tmEmpty emptyEngine ptEmpty "nope" 0 .pending none none none
    [] 0 0 none none none none none rfl rfl (List.not_mem_nil "nope") rfl

/-- The C2 per-meter invariant: `total_steps ≥ 1`, `current_step` within
`[0, total_steps]` and `progress` within `[0, 100]`. -/
def meterInv (m : ProgressMeter) : Prop :=
  1 ≤ m.total_steps ∧ 0 ≤ m.current_step ∧
    m.current_step ≤ m.total_steps ∧ 0 ≤ m.progress ∧ m.progress ≤ 100

/-- The C2 invariant over every stored meter. -/
def trackerInv (tr : ProgressTracker) : Prop :=
  ∀ p ∈ tr.meters, meterInv (p : String × ProgressMeter).2

/-- The amended C2 side condition on one operation: meters are created
with `total_steps ≥ 1`, and a supplied `current_step` argument lies in
`[0, total_steps]` of the targeted meter. -/
def goodOp (tr : ProgressTracker) : PTOp → Bool
  | .createMeter _ _ total _ => 1 ≤ total
  | .update meter_id cs _ _ _ _ =>
      (match cs, dictGet tr.meters meter_id with
       | some c, some m => 0 ≤ c && c ≤ m.total_steps
       | _, _ => true)
  | .deleteMeter _ => true

/-- `goodOp` holding along a whole operation sequence. -/
def goodOps (tr : ProgressTracker) : List (Nat × PTOp) → Bool
  | [] => true
  | (now, op) :: rest => goodOp tr op && goodOps (tr.applyOp now op) rest

theorem applyState_total (m : ProgressMeter) (now : Nat)
    (s : Option ProgressState) :
    (m.applyState now s).total_steps = m.total_steps := by
  cases s with
  | none => rfl
  | some s =>
      simp only [ProgressMeter.applyState]
      by_cases hA : s = ProgressState.in_progress ∧ m.started_at = none
      · rw [if_pos hA]
      · rw [if_neg hA]
        by_cases hB : s = ProgressState.completed
        · rw [if_pos hB]
        · rw [if_neg hB]

theorem meterInv_applyState (m : ProgressMeter) (now : Nat)
    (s : Option ProgressState) (h : meterInv m) :
    meterInv (m.applyState now s) := by
  obtain ⟨h1, h2, h3, h4, h5⟩ := h
  cases s with
  | none => exact ⟨h1, h2, h3, h4, h5⟩
  | some s =>
      simp only [ProgressMeter.applyState]
      by_cases hA : s = ProgressState.in_progress ∧ m.started_at = none
      · rw [if_pos hA]
        exact ⟨h1, h2, h3, h4, h5⟩
      · rw [if_neg hA]
        by_cases hB : s = ProgressState.completed
        · rw [if_pos hB]
          exact ⟨h1, (by omega : (0 : Int) ≤ m.total_steps),
            le_refl m.total_steps, (by norm_num : (0 : ℚ) ≤ 100),
            le_refl (100 : ℚ)⟩
        · rw [if_neg hB]
          exact ⟨h1, h2, h3, h4, h5⟩

theorem meterInv_applyStep (m : ProgressMeter) (cs : Option Int)
    (h : meterInv m)
    (hc : ∀ c, cs = some c → 0 ≤ c ∧ c ≤ m.total_steps) :
    meterInv (m.applyStep cs).1 ∧ (m.applyStep cs).2 = none := by
  obtain ⟨h1, h2, h3, h4, h5⟩ := h
  cases cs with
  | none => exact ⟨⟨h1, h2, h3, h4, h5⟩, rfl⟩
  | some c =>
      obtain ⟨hc0, hc1⟩ := hc c rfl
      have hne : m.total_steps ≠ 0 := by omega
      have ht : (0 : ℚ) < (m.total_steps : ℚ) := by
        exact_mod_cast (by omega : (0 : ℤ) < m.total_steps)
      simp only [ProgressMeter.applyStep]
      rw [if_neg hne]
      refine ⟨⟨h1, hc0, hc1, ?_, ?_⟩, rfl⟩
      · exact mul_nonneg
          (div_nonneg (by exact_mod_cast hc0) (le_of_lt ht)) (by norm_num)
      · have hq : ((c : ℚ) / (m.total_steps : ℚ)) ≤ 1 :=
          (div_le_one ht).mpr (by exact_mod_cast hc1)
        calc ((c : ℚ) / (m.total_steps : ℚ)) * 100
            ≤ 1 * 100 := mul_le_mul_of_nonneg_right hq (by norm_num)
          _ = 100 := by norm_num

theorem meterInv_applyProgressArg (m : ProgressMeter) (p : Option ℚ)
    (h : meterInv m) : meterInv (m.applyProgressArg p) := by
  obtain ⟨h1, h2, h3, h4, h5⟩ := h
  cases p with
  | none => exact ⟨h1, h2, h3, h4, h5⟩
  | some p =>
      have hp0 : (0 : ℚ) ≤ max 0 (min 100 p) := le_max_left _ _
      have hp1 : max 0 (min 100 p) ≤ 100 :=
        max_le (by norm_num) (min_le_left _ _)
      have htn : (0 : ℚ) ≤ (m.total_steps : ℚ) := by
        exact_mod_cast (by omega : (0 : ℤ) ≤ m.total_steps)
      have harg0 : (0 : ℚ) ≤ (max 0 (min 100 p) / 100) * (m.total_steps : ℚ) :=
        mul_nonneg (div_nonneg hp0 (by norm_num)) htn
      have harg1 : (max 0 (min 100 p) / 100) * (m.total_steps : ℚ)
          ≤ (m.total_steps : ℚ) :=
        mul_le_of_le_one_left htn ((div_le_one (by norm_num)).mpr hp1)
      simp only [ProgressMeter.applyProgressArg]
      refine ⟨h1, ?_, ?_, hp0, hp1⟩
      · unfold pyInt
        rw [if_pos harg0]
        exact Int.le_floor.mpr (by exact_mod_cast harg0)
      · unfold pyInt
        rw [if_pos harg0]
        calc ⌊(max 0 (min 100 p) / 100) * (m.total_steps : ℚ)⌋
            ≤ ⌊(m.total_steps : ℚ)⌋ := Int.floor_le_floor harg1
          _ = m.total_steps := Int.floor_intCast _

theorem meterInv_applyMessage (m : ProgressMeter) (now : Nat)
    (data : Option (List (String × PyVal))) (msg : Option String)
    (h : meterInv m) : meterInv (m.applyMessage now data msg) := by
  cases msg with
  | none => exact h
  | some s => exact h

theorem meterInv_applyEta (m : ProgressMeter) (now : Nat) (h : meterInv m) :
    meterInv (m.applyEta now) := by
  cases hst : m.started_at with
  | none => simpa only [ProgressMeter.applyEta, hst] using h
  | some t0 =>
      simp only [ProgressMeter.applyEta, hst]
      by_cases hA : m.state = ProgressState.in_progress
      · rw [if_pos hA]
        by_cases hB : (0 : ℚ) < m.progress
        · rw [if_pos hB]
          exact h
        · rw [if_neg hB]
          exact h
      · rw [if_neg hA]
        exact h

theorem trackerInv_update (tr : ProgressTracker) (now : Nat)
    (meter_id : String) (cs : Option Int) (pq : Option ℚ)
    (ps : Option ProgressState) (msg : Option String)
    (data : Option (List (String × PyVal)))
    (h : trackerInv tr)
    (hgood : goodOp tr (.update meter_id cs pq ps msg data) = true) :
    trackerInv (tr.update_progress now meter_id cs pq ps msg data).1 := by
  cases hget : dictGet tr.meters meter_id with
  | none =>
      intro p hp
      apply h p
      simpa only [ProgressTracker.update_progress, hget] using hp
  | some meter =>
      have hm : meterInv meter := h _ (dictGet_mem hget)
      have h1 := meterInv_applyState meter now ps hm
      have hc : ∀ c, cs = some c →
          0 ≤ c ∧ c ≤ (meter.applyState now ps).total_steps := by
        intro c hcs
        subst hcs
        rw [applyState_total]
        simp only [goodOp, hget] at hgood
        simpa using hgood
      have h2 := meterInv_applyStep (meter.applyState now ps) cs h1 hc
      rcases hx : (meter.applyState now ps).applyStep cs with ⟨m2, oexc⟩
      rw [hx] at h2
      obtain ⟨h2inv, h2none⟩ := h2
      subst h2none
      intro p hp
      simp only [ProgressTracker.update_progress, hget, hx] at hp
      rcases mem_dictSet hp with hpe | hmem
      · subst hpe
        exact meterInv_applyEta _ now
          (meterInv_applyMessage _ now data msg
            (meterInv_applyProgressArg _ pq h2inv))
      · exact h p hmem

theorem trackerInv_applyOp (tr : ProgressTracker) (now : Nat) (op : PTOp)
    (h : trackerInv tr) (hgood : goodOp tr op = true) :
    trackerInv (tr.applyOp now op) := by
  cases op with
  | createMeter meter_id name total metadata =>
      intro p hp
      simp only [ProgressTracker.applyOp, ProgressTracker.create_meter] at hp
      rcases mem_dictSet hp with hpe | hmem
      · subst hpe
        have htot : (1 : Int) ≤ total := by simpa [goodOp] using hgood
        exact ⟨htot, le_refl (0 : Int), (by omega : (0 : Int) ≤ total),
          le_refl (0 : ℚ), (by norm_num : (0 : ℚ) ≤ 100)⟩
      · exact h p hmem
  | update meter_id cs pq ps msg data =>
      exact trackerInv_update tr now meter_id cs pq ps msg data h hgood
  | deleteMeter meter_id =>
      intro p hp
      simp only [ProgressTracker.applyOp, ProgressTracker.delete_meter] at hp
      by_cases hex : (dictGet tr.meters meter_id).isSome
      · rw [if_pos hex] at hp
        exact h p (mem_dictDel hp)
      · rw [if_neg hex] at hp
        exact h p hp

theorem trackerInv_runOps (tr : ProgressTracker) (ops : List (Nat × PTOp))
    (h : trackerInv tr) (hgood : goodOps tr ops = true) :
    trackerInv (tr.runOps ops) := by
  induction ops generalizing tr with
  | nil => exact h
  | cons hd tl ih =>
      obtain ⟨now, op⟩ := hd
      simp only [goodOps, Bool.and_eq_true] at hgood
      exact ih _ (trackerInv_applyOp tr now op h hgood.1) hgood.2

/-- C2 (counterexample): on a 5-step meter, `update_progress` with
`current_step = 10` stores progress 200 and current_step 10 — the
absolute-step channel performs no clamping, refuting "progress always in
[0,100] and current_step always in [0,total_steps]". -/
theorem c2_counterexample :
    ∃ m, ((ptEmpty.create_meter "m" "n" 5 none).1.update_progress 0 "m"
        (some 10) none none none none).2 = Except.ok (some m) ∧
      m.progress = 200 ∧ m.current_step = 10 ∧ m.total_steps = 5 ∧
      ¬(m.progress ≤ 100) ∧ ¬(m.current_step ≤ m.total_steps) := by
  refine ⟨_, rfl, ?_, ?_, ?_, ?_, ?_⟩ <;>
    norm_num [ProgressTracker.create_meter, ProgressTracker.update_progress,
      ProgressMeter.applyState, ProgressMeter.applyStep,
      ProgressMeter.applyProgressArg, ProgressMeter.applyMessage,
      ProgressMeter.applyEta, dictGet, dictSet, ptEmpty]

/-- C2 (amended): provided every meter is created with `total_steps ≥ 1`
and every supplied `current_step` argument lies within `[0, total_steps]`
of its target meter — the spec itself requires `totalSteps ≥ 1` — every
meter reachable by any sequence of tracker operations keeps progress in
[0,100] and current_step in [0,total_steps]. -/
theorem c2_amended (tr : ProgressTracker) (ops : List (Nat × PTOp))
    (hinv : trackerInv tr) (hgood : goodOps tr ops = true)
    (p : String × ProgressMeter) (hp : p ∈ (tr.runOps ops).meters) :
    0 ≤ p.2.progress ∧ p.2.progress ≤ 100 ∧ 0 ≤ p.2.current_step ∧
      p.2.current_step ≤ p.2.total_steps :=
  have h := trackerInv_runOps tr ops hinv hgood p hp
  ⟨h.2.2.2.1, h.2.2.2.2, h.2.1, h.2.2.1⟩

/-- The meter produced by the C2 witness operation sequence (created with
5 steps, then driven to Completed through the state channel). -/
def c2WitnessMeter : ProgressMeter :=
  { id := "m"
    name := "n"
    total_steps := 5
    current_step := 5
    progress := 100
    state := .completed
    started_at := none
    estimated_completion := none
    updates := []
    metadata := [] }

/-- C2 witness. -/
theorem c2_amended_witness :
    0 ≤ c2WitnessMeter.progress ∧ c2WitnessMeter.progress ≤ 100 ∧
      0 ≤ c2WitnessMeter.current_step ∧
      c2WitnessMeter.current_step ≤ c2WitnessMeter.total_steps :=
  c2_amended ptEmpty
    [(0, .createMeter "m" "n" 5 none),
     (1, .update "m" none none (some .completed) none none)]
    (fun p hp => absurd hp (List.not_mem_nil p)) (by decide)
    ("m", c2WitnessMeter) (List.Mem.head _)

/-- The Python sort key of `list_tasks`: priority rank, then creation
time. -/
def taskKey (t : Task) : Nat × Nat :=
  (priorityOrder t.priority, t.created_at)

/-- The claim-side filter of C6 ("the tasks matching all supplied filters",
tag filter satisfied by any overlap), as one conjunctive predicate.  The
conjunct order mirrors how the composition of the source's sequential
filters accumulates. -/
def claimMatches (status : Option TaskStatus) (priority : Option TaskPriority)
    (assigned_to workflow_id : Option String) (tags : Option (List String))
    (t : Task) : Bool :=
  (match tags with
   | some tg => tg.any (fun x => t.tags.contains x)
   | none => true) &&
  ((match workflow_id with
    | some w => t.workflow_id = some w
    | none => true) &&
   ((match assigned_to with
     | some a => t.assigned_to = some a
     | none => true) &&
    ((match priority with
      | some p => t.priority = p
      | none => true) &&
     (match status with
      | some s => t.status = s
      | none => true))))

theorem taskSortLE_trans : ∀ a b c : Task, taskSortLE a b = true →
    taskSortLE b c = true → taskSortLE a c = true := by
  intro a b c hab hbc
  simp only [taskSortLE, Bool.or_eq_true, Bool.and_eq_true,
    decide_eq_true_eq] at *
  omega

theorem taskSortLE_total : ∀ a b : Task,
    (taskSortLE a b || taskSortLE b a) = true := by
  intro a b
  simp only [taskSortLE, Bool.or_eq_true, Bool.and_eq_true,
    decide_eq_true_eq]
  omega

theorem taskSortLE_of_keyEq {a b : Task} (h : taskKey a = taskKey b) :
    taskSortLE a b = true := by
  simp only [taskKey, Prod.mk.injEq] at h
  simp only [taskSortLE, Bool.or_eq_true, Bool.and_eq_true,
    decide_eq_true_eq]
  omega

theorem list_tasks_eq_filter (st : TaskManager) (status : Option TaskStatus)
    (priority : Option TaskPriority)
    (assigned_to workflow_id : Option String) (tags : Option (List String))
    (ha : assigned_to ≠ some "") (hw : workflow_id ≠ some "")
    (htg : tags ≠ some []) :
    st.list_tasks status priority assigned_to workflow_id tags
      = ((dictValues st.tasks).filter
          (fun t => claimMatches status priority assigned_to workflow_id
            tags t)).mergeSort taskSortLE := by
  unfold TaskManager.list_tasks
  cases status <;> cases priority <;> cases assigned_to <;>
      cases workflow_id <;> cases tags <;>
    simp_all [claimMatches, List.filter_filter]

/-- C6 (amended): once filters supplied as Python-falsy values (empty
string for assigned_to / workflow_id, empty list for tags) are excluded —
the source skips those under truthiness — `list_tasks` returns exactly the
tasks matching all supplied filters (tag filter: any overlap), sorted by
priority Urgent, High, Medium, Low with `created_at` ascending as
tie-break, and stably: tasks with equal sort key keep their table order. -/
theorem c6_amended (st : TaskManager) (status : Option TaskStatus)
    (priority : Option TaskPriority)
    (assigned_to workflow_id : Option String) (tags : Option (List String))
    (ha : assigned_to ≠ some "") (hw : workflow_id ≠ some "")
    (htg : tags ≠ some []) :
    (∀ t, t ∈ st.list_tasks status priority assigned_to workflow_id tags ↔
        t ∈ dictValues st.tasks ∧
          claimMatches status priority assigned_to workflow_id tags t
            = true) ∧
    (st.list_tasks status priority assigned_to workflow_id tags).Pairwise
        (fun a b => taskSortLE a b = true) ∧
    (∀ key : Nat × Nat,
      (st.list_tasks status priority assigned_to workflow_id tags).filter
          (fun t => taskKey t = key)
        = ((dictValues st.tasks).filter
            (fun t => claimMatches status priority assigned_to workflow_id
              tags t)).filter (fun t => taskKey t = key)) := by
  rw [list_tasks_eq_filter st status priority assigned_to workflow_id tags
    ha hw htg]
  refine ⟨?_, ?_, ?_⟩
  · intro t
    rw [List.mem_mergeSort, List.mem_filter]
  · exact List.sorted_mergeSort taskSortLE_trans taskSortLE_total _
  · intro key
    set l := (dictValues st.tasks).filter
      (fun t => claimMatches status priority assigned_to workflow_id tags t)
      with hl
    have hpair : (l.filter (fun t => taskKey t = key)).Pairwise
        (fun a b => taskSortLE a b = true) := by
      apply List.pairwise_of_forall_mem_list
      intro a ha' b hb'
      have hka : taskKey a = key := by
        simpa using (List.mem_filter.mp ha').2
      have hkb : taskKey b = key := by
        simpa using (List.mem_filter.mp hb').2
      exact taskSortLE_of_keyEq (hka.trans hkb.symm)
    have hsub : (l.filter (fun t => taskKey t = key)).Sublist
        (l.mergeSort taskSortLE) :=
      List.sublist_mergeSort taskSortLE_trans taskSortLE_total hpair
        (List.filter_sublist l)
    have hself : (l.filter (fun t => taskKey t = key)).filter
        (fun t => taskKey t = key) = l.filter (fun t => taskKey t = key) :=
      List.filter_eq_self.mpr (fun a ha' => (List.mem_filter.mp ha').2)
    have hsub2 : (l.filter (fun t => taskKey t = key)).Sublist
        ((l.mergeSort taskSortLE).filter (fun t => taskKey t = key)) := by
      have h' := List.Sublist.filter
        (fun t => decide (taskKey t = key)) hsub
      rwa [hself] at h'
    have hlen : ((l.mergeSort taskSortLE).filter
          (fun t => taskKey t = key)).length
        = (l.filter (fun t => taskKey t = key)).length :=
      (List.Perm.filter _ (List.mergeSort_perm l taskSortLE)).length_eq
    exact (hsub2.eq_of_length hlen.symm).symm

/-- A concrete task carrying one tag, for the C6 counterexample. -/
def c6Task : Task :=
  { id := "a"
    name := "n"
    description := ""
    status := .pending
    priority := .medium
    created_at := 0
    updated_at := 0
    completed_at := none
    assigned_to := none
    tags := ["x"]
    progress := 0
    result := none
    error := none
    metadata := []
    dependencies := []
    workflow_id := none }

/-- C6 (counterexample): supplying the tag filter as the empty list is
answered with all tasks — the source skips any falsy filter under Python
truthiness — although no task has an overlap with the empty tag list, so
"returns exactly the tasks matching all supplied filters" fails as
stated. -/
theorem c6_counterexample :
    c6Task ∈ (TaskManager.mk [("a", c6Task)] []).list_tasks none none none
        none (some []) ∧
    claimMatches none none none none (some []) c6Task = false := by
  constructor
  · simp [TaskManager.list_tasks, dictValues, List.mem_mergeSort]
  · rfl

/-- C6 witness. -/
theorem c6_amended_witness :
    (∀ t, t ∈ sampleTM.list_tasks none none none none none ↔
        t ∈ dictValues sampleTM.tasks ∧
          claimMatches none none none none none t = true) ∧
    (sampleTM.list_tasks none none none none none).Pairwise
        (fun a b => taskSortLE a b = true) ∧
    (∀ key : Nat × Nat,
      (sampleTM.list_tasks none none none none none).filter
          (fun t => taskKey t = key)
        = ((dictValues sampleTM.tasks).filter
            (fun t => claimMatches none none none none none t)).filter
            (fun t => taskKey t = key)) :=
  c6_amended sampleTM none none none none none (by decide) (by decide)
    (by decide)

end LLMOD
